import Mathlib

/-!
Verification development for the Transcriptgpt repository.

The development shallowly embeds the parts of the code the properties
below speak about:

* the AI enrichment wrappers in src/server/services/openai.ts
  (analyzeTranscriptionContent, detectLanguageFromText,
  enhanceTranscriptionText) and the Gemini variants of the last two in
  src/unnamed/part_003;
* the Express route handler for POST /api/ai/analyze in
  src/unnamed/part_003;
* the client recognition-session hook useSpeechRecognition in
  src/unnamed/part_002 (transcript accumulation, enrichment fan-out,
  stopRecording, clearTranscript, switchLanguage, toggleEnhancedMode and
  the keyword-scoring language fallback), modelled as a state machine on
  an explicit SessionState record.

JavaScript numbers are modelled as exact rationals; all constants in the
code (0.5, 0.8, 0.82, ...) are decimal literals, so the arithmetic the
properties mention is exact.  JavaScript string truthiness (undefined,
null and the empty string are falsy) is modelled explicitly, as is the
falsiness of the number 0, which the wrappers rely on via the binary
or-else idiom.
-/

namespace Spec2Proof

/-! ## JavaScript value helpers -/

/-- Clamp to the unit interval: the code writes Math.max(0, Math.min(1, x)). -/
def clamp01 (q : ℚ) : ℚ := max 0 (min 1 q)

/-- The idiom v or-else d on a numeric field: an absent field
(undefined) and the number 0 are both falsy, so both fall back to d. -/
def jsOrNum (v : Option ℚ) (d : ℚ) : ℚ :=
  match v with
  | none => d
  | some q => if q = 0 then d else q

/-- The idiom v or-else d on a string field: an absent field and the
empty string are both falsy, so both fall back to d. -/
def jsOrStr (v : Option String) (d : String) : String :=
  match v with
  | none => d
  | some s => if s = "" then d else s

/-- JavaScript truthiness of an optional string request-body field:
false for an absent field and for the empty string. -/
def truthyStr (v : Option String) : Bool :=
  match v with
  | none => false
  | some s => s ≠ ""

/-! ## Upstream model replies

Each wrapper issues one provider call and parses the reply content as
JSON inside a try/catch.  The possible shapes of the call outcome, as
the wrapper code distinguishes them, are:

* apiError — the provider call itself threw (network or model error);
* emptyContent — the call succeeded but the message content was null or
  empty (openai.ts then parses the literal string of an empty JSON
  object, so every field of the parsed result is absent);
* badJson — the content was non-empty but JSON parsing threw;
* fields o — the content parsed to an object whose relevant fields are
  collected in o, each field possibly absent.

F is the record of relevant fields of the operation. -/
inductive ModelReply (F : Type) where
  | apiError : ModelReply F
  | emptyContent : ModelReply F
  | badJson : ModelReply F
  | fields : F → ModelReply F

/-- Parsed-object fields the analyze wrapper reads. -/
structure AnalyzeFields where
  answer : Option String
  confidence : Option ℚ
  relatedTopics : Option (List String)
deriving DecidableEq

/-- Parsed-object fields the detect-language wrapper reads. -/
structure DetectFields where
  language : Option String
  confidence : Option ℚ
  languageCode : Option String
deriving DecidableEq

/-- Parsed-object fields the enhance wrapper reads. -/
structure EnhanceFields where
  enhancedText : Option String
  corrections : Option (List String)
  confidence : Option ℚ
deriving DecidableEq

/-- Result record of analyzeTranscriptionContent. -/
structure AnalysisResult where
  answer : String
  confidence : ℚ
  relatedTopics : List String
deriving DecidableEq

/-- Result record of detectLanguageFromText. -/
structure LanguageDetection where
  language : String
  confidence : ℚ
  languageCode : String
deriving DecidableEq

/-- Result record of enhanceTranscriptionText. -/
structure EnhanceResult where
  enhancedText : String
  corrections : List String
  confidence : ℚ
deriving DecidableEq

/-! ## AI enrichment wrappers, src/server/services/openai.ts

These are the implementations the server routes import.  In openai.ts
the parsed content is (content or-else an empty JSON object literal), so
a null or empty content parses to the object with every field absent and
does not throw; a JSON parse failure and a provider-call failure both
land in the catch block. -/

/-- Embedding of analyzeTranscriptionContent (openai.ts lines 98 to 131).
The catch block rethrows, so the function is fallible to its caller. -/
def analyzeTranscriptionContent (transcription question : String)
    (reply : ModelReply AnalyzeFields) : Except String AnalysisResult :=
  match reply with
  | .apiError => .error "Falha ao analisar conteúdo"
  | .badJson => .error "Falha ao analisar conteúdo"
  | .emptyContent =>
      .ok { answer := jsOrStr none
              "Não foi possível gerar uma resposta baseada no conteúdo transcrito."
          , confidence := clamp01 (jsOrNum none 0.5)
          , relatedTopics := [] }
  | .fields o =>
      .ok { answer := jsOrStr o.answer
              "Não foi possível gerar uma resposta baseada no conteúdo transcrito."
          , confidence := clamp01 (jsOrNum o.confidence 0.5)
          , relatedTopics := o.relatedTopics.getD [] }

/-- Embedding of detectLanguageFromText (openai.ts lines 153 to 187).
The catch block returns an error object instead of throwing. -/
def detectLanguageFromText (text : String)
    (reply : ModelReply DetectFields) : LanguageDetection :=
  match reply with
  | .apiError =>
      { language := "Erro na detecção", confidence := 0, languageCode := "unknown" }
  | .badJson =>
      { language := "Erro na detecção", confidence := 0, languageCode := "unknown" }
  | .emptyContent =>
      { language := jsOrStr none "Não identificado"
      , confidence := clamp01 (jsOrNum none 0.5)
      , languageCode := jsOrStr none "unknown" }
  | .fields o =>
      { language := jsOrStr o.language "Não identificado"
      , confidence := clamp01 (jsOrNum o.confidence 0.5)
      , languageCode := jsOrStr o.languageCode "unknown" }

/-- Embedding of enhanceTranscriptionText (openai.ts lines 41 to 91).
The catch block returns the original text unchanged instead of
throwing.  targetLanguage only shapes the prompt, never the result. -/
def enhanceTranscriptionText (text targetLanguage : String)
    (reply : ModelReply EnhanceFields) : EnhanceResult :=
  match reply with
  | .apiError =>
      { enhancedText := text, corrections := [], confidence := 0.5 }
  | .badJson =>
      { enhancedText := text, corrections := [], confidence := 0.5 }
  | .emptyContent =>
      { enhancedText := jsOrStr none text
      , corrections := []
      , confidence := clamp01 (jsOrNum none 0.8) }
  | .fields o =>
      { enhancedText := jsOrStr o.enhancedText text
      , corrections := o.corrections.getD []
      , confidence := clamp01 (jsOrNum o.confidence 0.8) }

/-! ## Gemini variants, src/unnamed/part_003 lines 289 to 396

These differ from openai.ts in one branch: an empty reply content is
raised as an error inside the try block, so it lands in the catch block
instead of parsing as an empty object. -/

/-- Embedding of the Gemini detectLanguageFromText
(src/unnamed/part_003 lines 289 to 339). -/
def geminiDetectLanguageFromText (text : String)
    (reply : ModelReply DetectFields) : LanguageDetection :=
  match reply with
  | .apiError =>
      { language := "Erro na detecção", confidence := 0, languageCode := "unknown" }
  | .badJson =>
      { language := "Erro na detecção", confidence := 0, languageCode := "unknown" }
  | .emptyContent =>
      { language := "Erro na detecção", confidence := 0, languageCode := "unknown" }
  | .fields o =>
      { language := jsOrStr o.language "Não identificado"
      , confidence := clamp01 (jsOrNum o.confidence 0.5)
      , languageCode := jsOrStr o.languageCode "unknown" }

/-- Embedding of the Gemini enhanceTranscriptionText
(src/unnamed/part_003 lines 341 to 396). -/
def geminiEnhanceTranscriptionText (text targetLanguage : String)
    (reply : ModelReply EnhanceFields) : EnhanceResult :=
  match reply with
  | .apiError =>
      { enhancedText := text, corrections := [], confidence := 0.5 }
  | .badJson =>
      { enhancedText := text, corrections := [], confidence := 0.5 }
  | .emptyContent =>
      { enhancedText := text, corrections := [], confidence := 0.5 }
  | .fields o =>
      { enhancedText := jsOrStr o.enhancedText text
      , corrections := o.corrections.getD []
      , confidence := clamp01 (jsOrNum o.confidence 0.8) }

/-! ## POST /api/ai/analyze route handler, src/unnamed/part_003 lines 128 to 141 -/

/-- Relevant fields of the request body; an absent field is none. -/
structure AnalyzeReqBody where
  transcription : Option String
  question : Option String
deriving DecidableEq

/-- Outcome of one request to the analyze route: the HTTP status sent
and whether the AI provider wrapper was invoked at all. -/
structure RouteOutcome where
  status : Nat
  providerCalled : Bool
deriving DecidableEq

/-- Embedding of the POST /api/ai/analyze handler.  The handler
destructures transcription and question from the body, answers 400
before any provider call when either is falsy, otherwise awaits the
wrapper and answers 200 on success and 500 when it throws. -/
def analyzeRoute (body : AnalyzeReqBody)
    (reply : ModelReply AnalyzeFields) : RouteOutcome :=
  if ¬ truthyStr body.transcription ∨ ¬ truthyStr body.question then
    { status := 400, providerCalled := false }
  else
    match analyzeTranscriptionContent (body.transcription.getD "")
        (body.question.getD "") reply with
    | .ok _ => { status := 200, providerCalled := true }
    | .error _ => { status := 500, providerCalled := true }

/-! ## Recognition session, src/unnamed/part_002

The useSpeechRecognition hook keeps a dozen state cells; SessionState
collects them into one record.  recognitionActive models whether
recognitionRef currently holds a recognizer, timeTimer and audioTimer
whether the two intervals are scheduled.  Confidence values and the
audio level are exact rationals. -/
structure SessionState where
  isRecording : Bool
  transcript : String
  detectedLanguage : String
  confidence : ℚ
  audioLevel : ℚ
  recordingTime : Nat
  wordCount : Nat
  languageCount : Nat
  currentLanguage : String
  enhancedMode : Bool
  detectedLanguages : List String
  recognitionActive : Bool
  timeTimer : Bool
  audioTimer : Bool
deriving DecidableEq

/-- The useState initial values of the hook (part_002 lines 14 to 28). -/
def initialState : SessionState :=
  { isRecording := false
  , transcript := ""
  , detectedLanguage := "Português (BR)"
  , confidence := 0.98
  , audioLevel := 0
  , recordingTime := 0
  , wordCount := 0
  , languageCount := 1
  , currentLanguage := "pt-BR"
  , enhancedMode := true
  , detectedLanguages := ["pt-BR"]
  , recognitionActive := false
  , timeTimer := false
  , audioTimer := false }

/-- JavaScript String.prototype.toLowerCase, modelled character by
character over the underlying character list. -/
def lowerCase (s : String) : String := String.mk (s.data.map Char.toLower)

/-- Split a character list at whitespace characters.  Splitting at each
single whitespace character can produce empty tokens where the regex
split on whitespace runs would not; every use below filters tokens or
matches them against non-empty keywords, so the outcomes agree. -/
def splitWsAux : List Char → List Char → List String
  | [], acc => [String.mk acc.reverse]
  | c :: cs, acc =>
    if c.isWhitespace then String.mk acc.reverse :: splitWsAux cs []
    else splitWsAux cs (c :: acc)

/-- JavaScript String.prototype.split on whitespace. -/
def splitWs (s : String) : List String := splitWsAux s.data []

/-- JavaScript String.prototype.trim: drop whitespace from both ends. -/
def trimWs (s : String) : String :=
  String.mk (((s.data.dropWhile Char.isWhitespace).reverse.dropWhile
    Char.isWhitespace).reverse)

/-- updateWordCount (part_002 lines 31 to 34): trim, split on
whitespace, drop empty tokens, count. -/
def countWords (text : String) : Nat :=
  ((splitWs (trimWs text)).filter fun w => w.length > 0).length

/-- One entry of event.results: the best-alternative transcript text
and the isFinal flag. -/
structure RecogResult where
  transcript : String
  isFinal : Bool
deriving DecidableEq

/-- A recognizer result event: the results from event.resultIndex on. -/
def RecogEvent := List RecogResult

/-- The finalTranscript accumulator of the onresult loop (part_002
lines 135 to 146): concatenation of the finalized parts, in order. -/
def finalText (ev : RecogEvent) : String :=
  ev.foldl (fun acc r => if r.isFinal then acc ++ r.transcript else acc) ""

/-- The interimTranscript accumulator of the same loop: concatenation
of the not-yet-final parts, in order. -/
def interimText (ev : RecogEvent) : String :=
  ev.foldl (fun acc r => if r.isFinal then acc else acc ++ r.transcript) ""

/-- A fire-and-forget enrichment request issued by onresult: a
detect-language request on a text, or an enhance request on a text for
a target language. -/
inductive EnrichCall where
  | detect : String → EnrichCall
  | enhance : String → String → EnrichCall
deriving DecidableEq

/-- Embedding of recognition.onresult (part_002 lines 134 to 161).
Returns the updated state and the list of enrichment calls fired: the
event text (all finals then all interims) is appended to the end of the
existing transcript, the word count is recomputed on the full buffer,
and when the finalized text is non-empty a detect-language call on it
is fired, plus an enhance call on it (the segment, not the buffer) when
enhancedMode is on and its length exceeds 20. -/
def onresult (s : SessionState) (ev : RecogEvent) :
    SessionState × List EnrichCall :=
  let ft := finalText ev
  let it := interimText ev
  let full := s.transcript ++ ft ++ it
  let s1 := { s with transcript := full, wordCount := countWords full }
  let calls :=
    if ft ≠ "" then
      EnrichCall.detect ft ::
        (if s.enhancedMode ∧ ft.length > 20 then
          [EnrichCall.enhance ft s.currentLanguage]
        else [])
    else []
  (s1, calls)

/-- The detectLanguage mutation onSuccess handler (part_002 lines 42 to
52): install the reported language and confidence; append the language
code and bump languageCount only when the code is new. -/
def applyDetect (s : SessionState) (d : LanguageDetection) : SessionState :=
  let s1 := { s with detectedLanguage := d.language, confidence := d.confidence }
  if d.languageCode ∈ s.detectedLanguages then s1
  else
    { s1 with detectedLanguages := s.detectedLanguages ++ [d.languageCode]
            , languageCount := s.languageCount + 1 }

/-- The enhanceText mutation onSuccess handler (part_002 lines 68 to
73): when the reported enhanced text is truthy and differs from the
current buffer, the whole buffer is replaced by it. -/
def applyEnhance (s : SessionState) (enhancedText : String) : SessionState :=
  if enhancedText ≠ "" ∧ enhancedText ≠ s.transcript then
    { s with transcript := enhancedText, wordCount := countWords enhancedText }
  else s

/-- detectLanguageFromTextFallback keyword set (part_002 line 78). -/
def portugueseWords : List String :=
  ["que", "não", "uma", "para", "com", "está", "tem", "mais"]

/-- detectLanguageFromTextFallback keyword set (part_002 line 79). -/
def englishWords : List String :=
  ["the", "and", "is", "to", "it", "you", "that", "this"]

/-- detectLanguageFromTextFallback keyword set (part_002 line 80). -/
def spanishWords : List String :=
  ["que", "de", "el", "la", "en", "y", "es", "se"]

/-- Embedding of detectLanguageFromTextFallback (part_002 lines 76 to
107): lower-case, split on whitespace, score each keyword list by the
number of matching tokens, and install the strict highest scorer with
its fixed confidence constant; ties and all-zero scores change
nothing. -/
def detectLanguageFromTextFallback (s : SessionState) (text : String) :
    SessionState :=
  let words := splitWs (lowerCase text)
  let ptScore := (words.filter fun w => w ∈ portugueseWords).length
  let enScore := (words.filter fun w => w ∈ englishWords).length
  let esScore := (words.filter fun w => w ∈ spanishWords).length
  if ptScore > enScore ∧ ptScore > esScore then
    { s with detectedLanguage := "Português (BR)", currentLanguage := "pt-BR"
           , confidence := 0.85 }
  else if enScore > ptScore ∧ enScore > esScore then
    { s with detectedLanguage := "English (US)", currentLanguage := "en-US"
           , confidence := 0.82 }
  else if esScore > ptScore ∧ esScore > enScore then
    { s with detectedLanguage := "Español (ES)", currentLanguage := "es-ES"
           , confidence := 0.79 }
  else s

/-- Embedding of stopRecording (part_002 lines 218 to 240): drop the
recognizer reference, cancel both interval timers, reset the audio
level to 0.  The isRecording flag is cleared by the asynchronous onend
callback, not here. -/
def stopRecording (s : SessionState) : SessionState :=
  { s with recognitionActive := false
         , timeTimer := false
         , audioTimer := false
         , audioLevel := 0 }

/-- Embedding of clearTranscript (part_002 lines 242 to 250). -/
def clearTranscript (s : SessionState) : SessionState :=
  { s with transcript := ""
         , wordCount := 0
         , recordingTime := 0
         , languageCount := 1
         , detectedLanguage := "Português (BR)"
         , confidence := 0.98
         , detectedLanguages := ["pt-BR"] }

/-- Display name of a language code, the switch in switchLanguage
(part_002 lines 256 to 268). -/
def displayName (code : String) : String :=
  if code = "pt-BR" then "Português (BR)"
  else if code = "en-US" then "English (US)"
  else if code = "es-ES" then "Español (ES)"
  else "Português (BR)"

/-- Embedding of the synchronous part of switchLanguage (part_002 lines
252 to 275): set the current language and its display name; when
recording, stopRecording runs at once (the delayed restart is a later
timer event). -/
def switchLanguage (s : SessionState) (code : String) : SessionState :=
  let s1 := { s with currentLanguage := code, detectedLanguage := displayName code }
  if s.isRecording then stopRecording s1 else s1

/-- Embedding of toggleEnhancedMode (part_002 lines 277 to 286). -/
def toggleEnhancedMode (s : SessionState) : SessionState :=
  { s with enhancedMode := ¬ s.enhancedMode }

/-- Embedding of the successful branch of startRecording (part_002
lines 189 to 216): install a recognizer, reset the elapsed-time
counter, schedule both interval timers. -/
def startRecording (s : SessionState) : SessionState :=
  { s with recognitionActive := true
         , recordingTime := 0
         , timeTimer := true
         , audioTimer := true }

/-- recognition.onstart (part_002 lines 126 to 132). -/
def onstart (s : SessionState) : SessionState :=
  { s with isRecording := true }

/-- recognition.onerror (part_002 lines 163 to 174): the flag drops on
every error; only the toast depends on whether the error was abort. -/
def onerror (s : SessionState) : SessionState :=
  { s with isRecording := false }

/-- recognition.onend (part_002 lines 176 to 184): the flag drops and
both interval timers are cancelled. -/
def onend (s : SessionState) : SessionState :=
  { s with isRecording := false, timeTimer := false, audioTimer := false }

/-- Every state transition of the session: the recognizer callbacks,
the mutation success handlers, the fallback detector, and the five
user-facing commands. -/
inductive Action where
  | result : List RecogResult → Action
  | detectDone : LanguageDetection → Action
  | fallbackDetect : String → Action
  | enhanceDone : String → Action
  | start : Action
  | recStarted : Action
  | recErrored : Action
  | recEnded : Action
  | stopRec : Action
  | clear : Action
  | switchLang : String → Action
  | toggleEnhanced : Action
deriving DecidableEq

/-- The session step function: dispatch one action to its embedding. -/
def step (s : SessionState) : Action → SessionState
  | .result ev => (onresult s ev).1
  | .detectDone d => applyDetect s d
  | .fallbackDetect t => detectLanguageFromTextFallback s t
  | .enhanceDone t => applyEnhance s t
  | .start => startRecording s
  | .recStarted => onstart s
  | .recErrored => onerror s
  | .recEnded => onend s
  | .stopRec => stopRecording s
  | .clear => clearTranscript s
  | .switchLang code => switchLanguage s code
  | .toggleEnhanced => toggleEnhancedMode s

/-- Fold a sequence of recognizer result events through the session. -/
def applyEvents (s : SessionState) (evs : List RecogEvent) : SessionState :=
  evs.foldl (fun st ev => (onresult st ev).1) s

/-- A session in the fully stopped configuration: no recognizer
reference, no scheduled timer, audio level at rest. -/
def isStoppedState (s : SessionState) : Prop :=
  s.recognitionActive = false ∧ s.timeTimer = false ∧ s.audioTimer = false ∧
    s.audioLevel = 0

instance (s : SessionState) : Decidable (isStoppedState s) := by
  unfold isStoppedState; infer_instance

/-! ## Helper lemmas -/

lemma clamp01_nonneg (q : ℚ) : 0 ≤ clamp01 q := le_max_left 0 (min 1 q)

lemma clamp01_le_one (q : ℚ) : clamp01 q ≤ 1 :=
  max_le (by norm_num) (min_le_left 1 q)

lemma clamp01_of_unit (q : ℚ) (h0 : 0 ≤ q) (h1 : q ≤ 1) : clamp01 q = q := by
  unfold clamp01
  rw [min_eq_right h1, max_eq_right h0]

lemma onresult_length_le (s : SessionState) (ev : RecogEvent) :
    s.transcript.length ≤ ((onresult s ev).1).transcript.length := by
  show s.transcript.length ≤ (s.transcript ++ finalText ev ++ interimText ev).length
  rw [String.length_append, String.length_append]
  omega

lemma applyEvents_length_le (evs : List RecogEvent) :
    ∀ s : SessionState,
      s.transcript.length ≤ (applyEvents s evs).transcript.length := by
  induction evs with
  | nil => intro s; exact Nat.le_refl _
  | cons ev evs ih =>
      intro s
      exact (onresult_length_le s ev).trans (ih ((onresult s ev).1))

/-! ## Claims -/

/-- C6.  For every prior session state, clearTranscript resets
wordCount to 0, recordingTimeSeconds to 0, and the detected-languages
state to its initial single-language value: detectedLanguages is the
one-element pt-BR list, languageCount is 1, and the displayed detected
language is Português (BR). -/
theorem clear_resets_counters_and_detection (s : SessionState) :
    (clearTranscript s).wordCount = 0
    ∧ (clearTranscript s).recordingTime = 0
    ∧ (clearTranscript s).detectedLanguages = ["pt-BR"]
    ∧ (clearTranscript s).languageCount = 1
    ∧ (clearTranscript s).detectedLanguage = "Português (BR)" :=
  ⟨rfl, rfl, rfl, rfl, rfl⟩

/-- C9.  clearTranscript leaves currentLanguage, enhancedMode and
isRecording unchanged for every prior state: only the transcript, the
counters and the detection state are reset, so the session language and
enhanced-mode settings survive a clear. -/
theorem clear_preserves_settings (s : SessionState) :
    (clearTranscript s).currentLanguage = s.currentLanguage
    ∧ (clearTranscript s).enhancedMode = s.enhancedMode
    ∧ (clearTranscript s).isRecording = s.isRecording :=
  ⟨rfl, rfl, rfl⟩

/-- C7.  stopRecording is idempotent: for every session state, calling
it twice produces the same state as calling it once; on an
already-stopped session it is a no-op on the state; and it resets the
audio level to 0 and cancels both interval timers. -/
theorem stop_idempotent (s : SessionState) :
    stopRecording (stopRecording s) = stopRecording s
    ∧ (isStoppedState s → stopRecording s = s)
    ∧ (stopRecording s).audioLevel = 0
    ∧ (stopRecording s).timeTimer = false
    ∧ (stopRecording s).audioTimer = false := by
  refine ⟨rfl, ?_, rfl, rfl, rfl⟩
  rintro ⟨h1, h2, h3, h4⟩
  cases s
  simp only [stopRecording] at *
  simp_all

/-- Witness for C7: the no-op branch at the initial session state,
which is stopped. -/
theorem stop_idempotent_witness :
    isStoppedState initialState ∧ stopRecording initialState = initialState :=
  ⟨⟨rfl, rfl, rfl, rfl⟩, (stop_idempotent initialState).2.1 ⟨rfl, rfl, rfl, rfl⟩⟩

/-- C8.  A POST to the analyze route whose body is missing the question
field or the transcription field is answered 400 with no call to the AI
provider; and the provider is called only when both fields are present
(truthy). -/
theorem analyze_route_validates (body : AnalyzeReqBody)
    (reply : ModelReply AnalyzeFields)
    (h : body.question = none ∨ body.transcription = none) :
    analyzeRoute body reply = { status := 400, providerCalled := false }
    ∧ (∀ (b : AnalyzeReqBody) (r : ModelReply AnalyzeFields),
        (analyzeRoute b r).providerCalled = true →
          truthyStr b.transcription = true ∧ truthyStr b.question = true) := by
  constructor
  · unfold analyzeRoute
    rcases h with h | h <;> rw [h] <;> simp [truthyStr]
  · intro b r hcalled
    unfold analyzeRoute at hcalled
    split at hcalled
    · simp at hcalled
    · next hc =>
        push_neg at hc
        exact ⟨hc.1, hc.2⟩

/-- Witness for C8: a body with a transcription but no question is
rejected with 400 and no provider call. -/
theorem analyze_route_validates_witness :
    analyzeRoute { transcription := some "ola", question := none }
        ModelReply.apiError
      = { status := 400, providerCalled := false } :=
  (analyze_route_validates
    { transcription := some "ola", question := none }
    ModelReply.apiError (Or.inl rfl)).1

/-- C2.  On the input made of the eight English keywords, the offline
language heuristic detects English (US) with the fixed confidence
constant 0.82; and for every input, the confidence it reports is one of
the three fixed per-language constants 0.85, 0.82 and 0.79, or the
prior confidence when no strict winner exists — never a value computed
from the score magnitude. -/
theorem fallback_english_scenario (s : SessionState) (text : String) :
    (detectLanguageFromTextFallback s "the and is to it you that this").detectedLanguage
        = "English (US)"
    ∧ (detectLanguageFromTextFallback s "the and is to it you that this").confidence
        = 0.82
    ∧ (detectLanguageFromTextFallback s "the and is to it you that this").currentLanguage
        = "en-US"
    ∧ ((detectLanguageFromTextFallback s text).confidence = 0.85
        ∨ (detectLanguageFromTextFallback s text).confidence = 0.82
        ∨ (detectLanguageFromTextFallback s text).confidence = 0.79
        ∨ (detectLanguageFromTextFallback s text).confidence = s.confidence) := by
  refine ⟨rfl, rfl, rfl, ?_⟩
  unfold detectLanguageFromTextFallback
  dsimp only
  split
  · exact Or.inl rfl
  · split
    · exact Or.inr (Or.inl rfl)
    · split
      · exact Or.inr (Or.inr (Or.inl rfl))
      · exact Or.inr (Or.inr (Or.inr rfl))

/-- C3.  Across every sequence of recognizer result events the
transcript length is monotonically non-decreasing; and no session
transition other than clearTranscript and the acceptance of an
enhancement replacement can shorten the transcript. -/
theorem transcript_monotone (s : SessionState) (evs : List RecogEvent)
    (a : Action) (hclear : a ≠ Action.clear)
    (henh : ∀ t, a ≠ Action.enhanceDone t) :
    s.transcript.length ≤ (applyEvents s evs).transcript.length
    ∧ s.transcript.length ≤ (step s a).transcript.length := by
  refine ⟨applyEvents_length_le evs s, ?_⟩
  cases a with
  | result ev => exact onresult_length_le s ev
  | detectDone d =>
      show s.transcript.length ≤ (applyDetect s d).transcript.length
      unfold applyDetect
      split <;> exact Nat.le_refl _
  | fallbackDetect t =>
      show s.transcript.length ≤ (detectLanguageFromTextFallback s t).transcript.length
      unfold detectLanguageFromTextFallback
      dsimp only
      split
      · exact Nat.le_refl _
      · split
        · exact Nat.le_refl _
        · split <;> exact Nat.le_refl _
  | enhanceDone t => exact absurd rfl (henh t)
  | start => exact Nat.le_refl _
  | recStarted => exact Nat.le_refl _
  | recErrored => exact Nat.le_refl _
  | recEnded => exact Nat.le_refl _
  | stopRec => exact Nat.le_refl _
  | clear => exact absurd rfl hclear
  | switchLang code =>
      show s.transcript.length ≤ (switchLanguage s code).transcript.length
      unfold switchLanguage
      split <;> exact Nat.le_refl _
  | toggleEnhanced => exact Nat.le_refl _

/-- Witness for C3: a concrete result event grows the transcript from
the initial state, and stopRecording does not shorten it. -/
theorem transcript_monotone_witness :
    initialState.transcript.length
        ≤ (applyEvents initialState [[{ transcript := "ola mundo", isFinal := true }]]).transcript.length
    ∧ initialState.transcript.length
        ≤ (step initialState Action.stopRec).transcript.length :=
  transcript_monotone initialState
    [[{ transcript := "ola mundo", isFinal := true }]]
    Action.stopRec (by decide) (fun t h => by cases h)

/-- C4.  A recognizer result event with empty finalized text fires no
enrichment call; an event with non-empty finalized text fires a
language-detection call on that finalized text, fires an enhancement
call exactly when enhancedMode is on and the finalized text exceeds 20
characters, and any enhancement call fired carries the finalized
segment (not the full buffer) together with the current language. -/
theorem onresult_enrichment (s : SessionState) (ev : RecogEvent) :
    (finalText ev = "" → (onresult s ev).2 = [])
    ∧ (finalText ev ≠ "" →
        EnrichCall.detect (finalText ev) ∈ (onresult s ev).2
        ∧ (EnrichCall.enhance (finalText ev) s.currentLanguage ∈ (onresult s ev).2
            ↔ s.enhancedMode = true ∧ 20 < (finalText ev).length)
        ∧ (∀ t lg, EnrichCall.enhance t lg ∈ (onresult s ev).2 →
            t = finalText ev ∧ lg = s.currentLanguage)) := by
  constructor
  · intro hft
    show (if finalText ev ≠ "" then _ else []) = []
    simp [hft]
  · intro hft
    have hcalls : (onresult s ev).2
        = EnrichCall.detect (finalText ev) ::
            (if s.enhancedMode ∧ (finalText ev).length > 20 then
              [EnrichCall.enhance (finalText ev) s.currentLanguage]
            else []) := by
      show (if finalText ev ≠ "" then _ else []) = _
      simp [hft]
    rw [hcalls]
    refine ⟨List.mem_cons_self _ _, ?_, ?_⟩
    · constructor
      · intro hmem
        rcases List.mem_cons.mp hmem with heq | htail
        · exact absurd heq (by simp)
        · by_cases hcond : s.enhancedMode ∧ (finalText ev).length > 20

          · exact ⟨by simp [hcond.1], hcond.2⟩
          · simp [hcond] at htail
      · intro hcond
        refine List.mem_cons.mpr (Or.inr ?_)
        simp [hcond.1, hcond.2]
    · intro t lg hmem
      rcases List.mem_cons.mp hmem with heq | htail
      · exact absurd heq (by simp)
      · by_cases hcond : s.enhancedMode ∧ (finalText ev).length > 20
        · simp [hcond] at htail
          exact ⟨htail.1, htail.2⟩
        · simp [hcond] at htail

/-- Witness for C4: a single finalized segment longer than 20
characters fires its detect call from the initial state. -/
theorem onresult_enrichment_witness :
    EnrichCall.detect
        (finalText [{ transcript := "uma frase bem comprida com certeza", isFinal := true }])
      ∈ (onresult initialState
          [{ transcript := "uma frase bem comprida com certeza", isFinal := true }]).2 :=
  ((onresult_enrichment initialState
      [{ transcript := "uma frase bem comprida com certeza", isFinal := true }]).2
    (by decide)).1

/-- C1 counterexample.  The claim says every malformed or empty
upstream reply makes detect-language return the object with language
Não identificado and confidence 0, and enhance return confidence 0.5.
At concrete inputs: on a reply whose JSON fails to parse the detect
wrapper reports Erro na detecção, not Não identificado; on an empty
reply it reports confidence 0.5, not 0; and the enhance wrapper reports
confidence 0.8 on an empty reply, not 0.5. -/
theorem detect_enhance_default_counterexample :
    (detectLanguageFromText "hello" ModelReply.badJson).language
        ≠ "Não identificado"
    ∧ (detectLanguageFromText "hello" ModelReply.emptyContent).confidence ≠ 0
    ∧ (enhanceTranscriptionText "hello" "pt-BR" ModelReply.emptyContent).confidence
        ≠ 0.5 := by
  refine ⟨by decide, ?_, ?_⟩
  · show clamp01 (jsOrNum none 0.5) ≠ 0
    rw [show jsOrNum none 0.5 = 0.5 from rfl,
      clamp01_of_unit 0.5 (by norm_num) (by norm_num)]
    norm_num
  · show clamp01 (jsOrNum none 0.8) ≠ 0.5
    rw [show jsOrNum none 0.8 = 0.8 from rfl,
      clamp01_of_unit 0.8 (by norm_num) (by norm_num)]
    norm_num

/-- C1 as amended.  For every input text, neither wrapper raises on a
malformed or empty upstream reply (they are total functions into their
result records); the openai.ts detect wrapper returns the object with
language Erro na detecção, confidence 0 and code unknown when the call
errors or its JSON fails to parse, and the object with language Não
identificado, confidence 0.5 and code unknown on empty content, while
the openai.ts enhance wrapper returns the original text with no
corrections at confidence 0.5 in the first two cases and at confidence
0.8 on empty content.  The Gemini variants in part_003 treat empty
content like a parse failure. -/
theorem detect_enhance_defaults (text lg : String) :
    detectLanguageFromText text ModelReply.badJson
        = { language := "Erro na detecção", confidence := 0, languageCode := "unknown" }
    ∧ detectLanguageFromText text ModelReply.apiError
        = { language := "Erro na detecção", confidence := 0, languageCode := "unknown" }
    ∧ detectLanguageFromText text ModelReply.emptyContent
        = { language := "Não identificado", confidence := 0.5, languageCode := "unknown" }
    ∧ enhanceTranscriptionText text lg ModelReply.badJson
        = { enhancedText := text, corrections := [], confidence := 0.5 }
    ∧ enhanceTranscriptionText text lg ModelReply.apiError
        = { enhancedText := text, corrections := [], confidence := 0.5 }
    ∧ enhanceTranscriptionText text lg ModelReply.emptyContent
        = { enhancedText := text, corrections := [], confidence := 0.8 }
    ∧ geminiDetectLanguageFromText text ModelReply.emptyContent
        = { language := "Erro na detecção", confidence := 0, languageCode := "unknown" }
    ∧ geminiEnhanceTranscriptionText text lg ModelReply.emptyContent
        = { enhancedText := text, corrections := [], confidence := 0.5 } := by
  have hd : clamp01 (jsOrNum none 0.5) = 0.5 := by
    rw [show jsOrNum none 0.5 = 0.5 from rfl]
    exact clamp01_of_unit 0.5 (by norm_num) (by norm_num)
  have he : clamp01 (jsOrNum none 0.8) = 0.8 := by
    rw [show jsOrNum none 0.8 = 0.8 from rfl]
    exact clamp01_of_unit 0.8 (by norm_num) (by norm_num)
  refine ⟨rfl, rfl, ?_, rfl, rfl, ?_, rfl, rfl⟩
  · show LanguageDetection.mk (jsOrStr none "Não identificado")
        (clamp01 (jsOrNum none 0.5)) (jsOrStr none "unknown")
      = LanguageDetection.mk "Não identificado" 0.5 "unknown"
    rw [hd]; rfl
  · show EnhanceResult.mk (jsOrStr none text) [] (clamp01 (jsOrNum none 0.8))
      = EnhanceResult.mk text [] 0.8
    rw [he]; rfl

/-- C5.  Every wrapper reports a confidence inside the unit interval
for every upstream reply: an out-of-range numeric confidence such as
1.5 is clamped to 1, and a missing confidence field falls back to the
operation default, 0.5 for analyze and detect-language and 0.8 for
enhance. -/
theorem wrappers_confidence_clamped (t q txt lg : String)
    (ra : ModelReply AnalyzeFields) (rd : ModelReply DetectFields)
    (re : ModelReply EnhanceFields) :
    (∀ r, analyzeTranscriptionContent t q ra = Except.ok r →
        0 ≤ r.confidence ∧ r.confidence ≤ 1)
    ∧ (0 ≤ (detectLanguageFromText txt rd).confidence
        ∧ (detectLanguageFromText txt rd).confidence ≤ 1)
    ∧ (0 ≤ (enhanceTranscriptionText txt lg re).confidence
        ∧ (enhanceTranscriptionText txt lg re).confidence ≤ 1)
    ∧ (∀ r, analyzeTranscriptionContent t q
          (ModelReply.fields { answer := none, confidence := some 1.5, relatedTopics := none })
            = Except.ok r →
        r.confidence = 1)
    ∧ (detectLanguageFromText txt (ModelReply.fields
        { language := none, confidence := some 1.5, languageCode := none })).confidence = 1
    ∧ (enhanceTranscriptionText txt lg (ModelReply.fields
        { enhancedText := none, corrections := none, confidence := some 1.5 })).confidence = 1
    ∧ (∀ r, analyzeTranscriptionContent t q
          (ModelReply.fields { answer := none, confidence := none, relatedTopics := none })
            = Except.ok r →
        r.confidence = 0.5)
    ∧ (detectLanguageFromText txt (ModelReply.fields
        { language := none, confidence := none, languageCode := none })).confidence = 0.5
    ∧ (enhanceTranscriptionText txt lg (ModelReply.fields
        { enhancedText := none, corrections := none, confidence := none })).confidence = 0.8 := by
  have hclamp15 : clamp01 (jsOrNum (some 1.5) 0.5) = 1 := by
    rw [show jsOrNum (some 1.5) 0.5 = if (1.5 : ℚ) = 0 then 0.5 else 1.5 from rfl]
    rw [if_neg (by norm_num)]
    unfold clamp01
    rw [min_eq_left (by norm_num), max_eq_right (by norm_num)]
  have hclamp15e : clamp01 (jsOrNum (some 1.5) 0.8) = 1 := by
    rw [show jsOrNum (some 1.5) 0.8 = if (1.5 : ℚ) = 0 then 0.8 else 1.5 from rfl]
    rw [if_neg (by norm_num)]
    unfold clamp01
    rw [min_eq_left (by norm_num), max_eq_right (by norm_num)]
  have hd : clamp01 (jsOrNum none 0.5) = 0.5 := by
    rw [show jsOrNum none 0.5 = 0.5 from rfl]
    exact clamp01_of_unit 0.5 (by norm_num) (by norm_num)
  have he : clamp01 (jsOrNum none 0.8) = 0.8 := by
    rw [show jsOrNum none 0.8 = 0.8 from rfl]
    exact clamp01_of_unit 0.8 (by norm_num) (by norm_num)
  refine ⟨?_, ?_, ?_, ?_, ?_, ?_, ?_, ?_, ?_⟩
  · intro r hr
    cases ra with
    | apiError => cases hr
    | badJson => cases hr
    | emptyContent =>
        cases hr
        exact ⟨clamp01_nonneg _, clamp01_le_one _⟩
    | fields o =>
        cases hr
        exact ⟨clamp01_nonneg _, clamp01_le_one _⟩
  · cases rd with
    | apiError => exact ⟨le_refl 0, by show (0 : ℚ) ≤ 1; norm_num⟩
    | badJson => exact ⟨le_refl 0, by show (0 : ℚ) ≤ 1; norm_num⟩
    | emptyContent => exact ⟨clamp01_nonneg _, clamp01_le_one _⟩
    | fields o => exact ⟨clamp01_nonneg _, clamp01_le_one _⟩
  · cases re with
    | apiError =>
        exact ⟨by show (0 : ℚ) ≤ 0.5; norm_num, by show (0.5 : ℚ) ≤ 1; norm_num⟩
    | badJson =>
        exact ⟨by show (0 : ℚ) ≤ 0.5; norm_num, by show (0.5 : ℚ) ≤ 1; norm_num⟩
    | emptyContent => exact ⟨clamp01_nonneg _, clamp01_le_one _⟩
    | fields o => exact ⟨clamp01_nonneg _, clamp01_le_one _⟩
  · intro r hr
    cases hr
    exact hclamp15
  · exact hclamp15
  · exact hclamp15e
  · intro r hr
    cases hr
    exact hd
  · exact hd
  · exact he

/-- Witness for C5: at a reply carrying confidence 1.5, the analyze
wrapper succeeds and the reported confidence is clamped inside the unit
interval. -/
theorem wrappers_confidence_clamped_witness :
    0 ≤ (AnalysisResult.mk
          "Não foi possível gerar uma resposta baseada no conteúdo transcrito."
          (clamp01 (jsOrNum (some 1.5) 0.5)) []).confidence
    ∧ (AnalysisResult.mk
          "Não foi possível gerar uma resposta baseada no conteúdo transcrito."
          (clamp01 (jsOrNum (some 1.5) 0.5)) []).confidence ≤ 1 :=
  (wrappers_confidence_clamped "t" "q" "ola" "pt-BR"
      (ModelReply.fields { answer := none, confidence := some 1.5, relatedTopics := none })
      (ModelReply.fields { language := none, confidence := some 1.5, languageCode := none })
      (ModelReply.fields { enhancedText := none, corrections := none, confidence := some 1.5 })).1
    _ rfl

/-- C10.  A well-formed upstream reply whose confidence field is
exactly 0 is reported at the operation default — 0.5 for analyze and
detect-language, 0.8 for enhance — because the number 0 is falsy and so
indistinguishable from an absent field in the or-else fallback. -/
theorem zero_confidence_defaults (t q txt lg : String)
    (fa : AnalyzeFields) (fd : DetectFields) (fe : EnhanceFields)
    (ha : fa.confidence = some 0) (hd : fd.confidence = some 0)
    (he : fe.confidence = some 0) :
    (∀ r, analyzeTranscriptionContent t q (ModelReply.fields fa) = Except.ok r →
        r.confidence = 0.5)
    ∧ (detectLanguageFromText txt (ModelReply.fields fd)).confidence = 0.5
    ∧ (enhanceTranscriptionText txt lg (ModelReply.fields fe)).confidence = 0.8 := by
  have hnum : ∀ d : ℚ, jsOrNum (some 0) d = d := by
    intro d
    unfold jsOrNum
    simp
  refine ⟨?_, ?_, ?_⟩
  · intro r hr
    cases hr
    show clamp01 (jsOrNum fa.confidence 0.5) = 0.5
    rw [ha, hnum]
    exact clamp01_of_unit 0.5 (by norm_num) (by norm_num)
  · show clamp01 (jsOrNum fd.confidence 0.5) = 0.5
    rw [hd, hnum]
    exact clamp01_of_unit 0.5 (by norm_num) (by norm_num)
  · show clamp01 (jsOrNum fe.confidence 0.8) = 0.8
    rw [he, hnum]
    exact clamp01_of_unit 0.8 (by norm_num) (by norm_num)

/-- Witness for C10: the detect wrapper at a parsed object whose
confidence field is the number 0 reports 0.5. -/
theorem zero_confidence_defaults_witness :
    (detectLanguageFromText "ola" (ModelReply.fields
        { language := none, confidence := some 0, languageCode := none })).confidence
      = 0.5 :=
  (zero_confidence_defaults "t" "q" "ola" "pt-BR"
      { answer := none, confidence := some 0, relatedTopics := none }
      { language := none, confidence := some 0, languageCode := none }
      { enhancedText := none, corrections := none, confidence := some 0 }
      rfl rfl rfl).2.1

end Spec2Proof
